import Mathlib

/-!
Shallow embedding of the admission-control core of the
electric-love-party-queue server (src/server/src/index.js).

Conventions used throughout:
* JS timestamps (`Date.now()` values, milliseconds) are modelled as `Int`.
* Spotify audio-feature values are modelled as `ℚ`.
* The JS `Map` stores (`rateLimitStore`, `oauthStateStore`) are modelled as
  functions from the key type to `Option` of the record type.
* Nullable / possibly-absent JS values are `Option`.
* Each request handler is a pure function from the shared state plus an
  environment describing the upstream responses observed during that
  request, to the response outcome plus the new shared state.
-/

namespace ElectricLove

/-! ### Rate limiting (index.js lines 28-31, 349-375, 848-871) -/

def RATE_LIMIT_WINDOW_MS : Int := 60 * 60 * 1000

def RATE_LIMIT_MAX_REQUESTS : Nat := 10

structure QuotaWindow where
  count : Nat
  windowStart : Int
deriving Repr, DecidableEq

def RateLimitStore : Type := String → Option QuotaWindow

def emptyRateLimitStore : RateLimitStore := fun _ => none

def setStore (store : RateLimitStore) (ip : String) (w : QuotaWindow) : RateLimitStore :=
  fun k => if k = ip then some w else store k

/-- Lines 354-359: take the stored entry for `ip`; if absent or the window has
lapsed (`now - windowStart >= RATE_LIMIT_WINDOW_MS`), start a new window
`{count: 0, windowStart: now}` (not yet written back to the store). -/
def rollWindow (stored : Option QuotaWindow) (now : Int) : QuotaWindow :=
  match stored with
  | none => { count := 0, windowStart := now }
  | some ul =>
      if now - ul.windowStart ≥ RATE_LIMIT_WINDOW_MS then { count := 0, windowStart := now }
      else ul

inductive RateCheck where
  | limited (resetAt : Int)
  | allowed (userLimit : QuotaWindow)
deriving Repr, DecidableEq

/-- `checkRateLimit` middleware (lines 350-375): reject with 429 carrying
`resetAt = windowStart + RATE_LIMIT_WINDOW_MS` when the (rolled) window count
has reached the limit; otherwise pass the rolled window on for a possible
later commit.  The store is never mutated here. -/
def checkRateLimit (store : RateLimitStore) (ip : String) (now : Int) : RateCheck :=
  if (rollWindow (store ip) now).count ≥ RATE_LIMIT_MAX_REQUESTS then
    .limited ((rollWindow (store ip) now).windowStart + RATE_LIMIT_WINDOW_MS)
  else
    .allowed (rollWindow (store ip) now)

structure RateStatus where
  remaining : Int
  resetAt : Option Int
deriving Repr, DecidableEq

/-- GET /api/rate-limit (lines 849-871): non-mutating snapshot.  A missing or
lapsed window reports full capacity with no reset time. -/
def rateLimitStatus (store : RateLimitStore) (ip : String) (now : Int) : RateStatus :=
  match store ip with
  | none => { remaining := (RATE_LIMIT_MAX_REQUESTS : Int), resetAt := none }
  | some ul =>
      if now - ul.windowStart ≥ RATE_LIMIT_WINDOW_MS then
        { remaining := (RATE_LIMIT_MAX_REQUESTS : Int), resetAt := none }
      else
        { remaining := max 0 ((RATE_LIMIT_MAX_REQUESTS : Int) - ul.count),
          resetAt := some (ul.windowStart + RATE_LIMIT_WINDOW_MS) }

/-! ### Vibe data model (index.js lines 42-111) -/

structure AudioFeatures where
  energy : ℚ
  valence : ℚ
  tempo : ℚ
  danceability : ℚ
deriving Repr, DecidableEq

structure Range where
  min : ℚ
  max : ℚ
deriving Repr, DecidableEq

/-- Field order follows the `tolerance` object of the `match` preset. -/
structure Tolerance where
  energy : ℚ
  valence : ℚ
  danceability : ℚ
  tempo : ℚ
deriving Repr, DecidableEq

/-- One preset's settings object.  Absent JS keys are `none` / `false`. -/
structure VibeSettings where
  name : String
  enabled : Bool
  dynamic : Bool := false
  tolerance : Option Tolerance := none
  energy : Option Range := none
  valence : Option Range := none
  tempo : Option Range := none
  danceability : Option Range := none
deriving Repr, DecidableEq

def offId : String := "off"
def matchId : String := "match"
def chillId : String := "chill"
def partyId : String := "party"
def romanticId : String := "romantic"
def hypeId : String := "hype"
def customId : String := "custom"

def offSettings : VibeSettings :=
  { name := "Off", enabled := false }

def matchTolerance : Tolerance :=
  { energy := 0.25, valence := 0.25, danceability := 0.25, tempo := 20 }

def matchSettings : VibeSettings :=
  { name := "Match Now Playing", enabled := true, dynamic := true,
    tolerance := some matchTolerance }

def chillSettings : VibeSettings :=
  { name := "Chill Vibes", enabled := true,
    energy := some { min := 0.1, max := 0.6 },
    valence := some { min := 0.2, max := 0.8 },
    tempo := some { min := 60, max := 120 },
    danceability := some { min := 0.3, max := 0.8 } }

def partySettings : VibeSettings :=
  { name := "Party Mode", enabled := true,
    energy := some { min := 0.6, max := 1.0 },
    valence := some { min := 0.4, max := 1.0 },
    tempo := some { min := 100, max := 150 },
    danceability := some { min := 0.6, max := 1.0 } }

def romanticSettings : VibeSettings :=
  { name := "Romantic", enabled := true,
    energy := some { min := 0.1, max := 0.6 },
    valence := some { min := 0.2, max := 0.7 },
    tempo := some { min := 60, max := 120 },
    danceability := some { min := 0.2, max := 0.7 } }

def hypeSettings : VibeSettings :=
  { name := "Hype", enabled := true,
    energy := some { min := 0.75, max := 1.0 },
    valence := some { min := 0.5, max := 1.0 },
    tempo := some { min := 110, max := 180 },
    danceability := some { min := 0.65, max := 1.0 } }

def customBaseSettings : VibeSettings :=
  { name := "Custom", enabled := true,
    energy := some { min := 0.0, max := 1.0 },
    valence := some { min := 0.0, max := 1.0 },
    tempo := some { min := 0, max := 300 },
    danceability := some { min := 0.0, max := 1.0 } }

/-- `VIBE_PRESETS` lookup (lines 42-105), modelled as a partial map from the
preset id to its settings object. -/
def VIBE_PRESETS : String → Option VibeSettings := fun p =>
  if p = offId then some offSettings
  else if p = matchId then some matchSettings
  else if p = chillId then some chillSettings
  else if p = partyId then some partySettings
  else if p = romanticId then some romanticSettings
  else if p = hypeId then some hypeSettings
  else if p = customId then some customBaseSettings
  else none

structure CurrentVibe where
  preset : String
  settings : VibeSettings
deriving Repr, DecidableEq

def initialVibe : CurrentVibe := { preset := offId, settings := offSettings }

/-! ### Vibe matching (index.js lines 144-240) -/

structure Thresholds where
  energy : Option Range
  valence : Option Range
  tempo : Option Range
  danceability : Option Range
deriving Repr, DecidableEq

/-- Lines 168-185: dynamic thresholds built from the now-playing reference.
Energy / valence / danceability are clamped into `[0,1]`; tempo is clamped
below at 0 but has no upper clamp. -/
def dynamicThresholds (ref : AudioFeatures) (tol : Tolerance) : Thresholds :=
  { energy := some { min := max 0 (ref.energy - tol.energy),
                     max := min 1 (ref.energy + tol.energy) },
    valence := some { min := max 0 (ref.valence - tol.valence),
                      max := min 1 (ref.valence + tol.valence) },
    danceability := some { min := max 0 (ref.danceability - tol.danceability),
                           max := min 1 (ref.danceability + tol.danceability) },
    tempo := some { min := max 0 (ref.tempo - tol.tempo),
                    max := ref.tempo + tol.tempo } }

/-- Lines 187-194: static thresholds read straight from the settings object. -/
def staticThresholds (settings : VibeSettings) : Thresholds :=
  { energy := settings.energy, valence := settings.valence,
    tempo := settings.tempo, danceability := settings.danceability }

def energyLowMsg : String := "Energy is too mellow"
def energyHighMsg : String := "Energy is too intense"
def valenceLowMsg : String := "Mood is too sad"
def valenceHighMsg : String := "Mood is too upbeat"
def tempoLowMsg : String := "Tempo is too slow"
def tempoHighMsg : String := "Tempo is too fast"
def danceLowMsg : String := "Track is not danceable enough"
def danceHighMsg : String := "Track is too dancey"

def noteNothingPlaying : String := "Nothing currently playing"
def noteNoReference : String := "Could not get reference track features"

/-- One `if (thresholds.d && (v < min || v > max)) mismatches.push(...)` block
(lines 198-216): contributes the low message when the value is strictly below
the minimum, the high message when strictly above the maximum. -/
def dimMismatch (r : Option Range) (v : ℚ) (lo hi : String) : List String :=
  match r with
  | none => []
  | some rg =>
      if v < rg.min ∨ v > rg.max then
        [if v < rg.min then lo else hi]
      else []

/-- Lines 196-216: mismatch reasons collected in source order
energy, valence, tempo, danceability. -/
def collectMismatches (th : Thresholds) (af : AudioFeatures) : List String :=
  dimMismatch th.energy af.energy energyLowMsg energyHighMsg ++
  dimMismatch th.valence af.valence valenceLowMsg valenceHighMsg ++
  dimMismatch th.tempo af.tempo tempoLowMsg tempoHighMsg ++
  dimMismatch th.danceability af.danceability danceLowMsg danceHighMsg

structure VibeCheckResult where
  isMatch : Bool
  reason : Option String
  note : Option String := none
  allReasons : List String := []
  thresholds : Option Thresholds := none
  referenceFeatures : Option AudioFeatures := none
deriving Repr, DecidableEq

/-- Lines 218-239: package the mismatch list; the primary `reason` is the
first mismatch pushed, `allReasons` the full list. -/
def finishCheck (th : Thresholds) (refF : Option AudioFeatures) (af : AudioFeatures) :
    VibeCheckResult :=
  match collectMismatches th af with
  | [] => { isMatch := true, reason := none }
  | r :: rest =>
      { isMatch := false, reason := some r, allReasons := r :: rest,
        thresholds := some th, referenceFeatures := refF }

/-- `checkVibeMatch` (lines 144-240).  `nowPlayingId` is the result of
`getCurrentlyPlayingTrackId()` and `referenceFeatures` the result of
`getAudioFeatures(nowPlayingId)`; both return `null` (here `none`) on any
failure, caught inside those helpers.  In the source `dynamic: true` occurs
only on the `match` preset, which always carries a `tolerance` object, so the
`getD` default for a missing tolerance is never reached on reachable
settings. -/
def checkVibeMatch (settings : VibeSettings) (nowPlayingId : Option String)
    (referenceFeatures : Option AudioFeatures) (audioFeatures : AudioFeatures) :
    VibeCheckResult :=
  if settings.enabled = false then
    { isMatch := true, reason := none }
  else if settings.dynamic then
    match nowPlayingId with
    | none => { isMatch := true, reason := none, note := some noteNothingPlaying }
    | some _ =>
        match referenceFeatures with
        | none => { isMatch := true, reason := none, note := some noteNoReference }
        | some ref =>
            let tol := settings.tolerance.getD
              { energy := 0, valence := 0, danceability := 0, tempo := 0 }
            finishCheck (dynamicThresholds ref tol) (some ref) audioFeatures
  else
    finishCheck (staticThresholds settings) none audioFeatures

/-! ### Enqueue pipeline (index.js lines 658-744) -/

/-- Upstream responses observed by the vibe stage of one request:
`audioFeatures` is the candidate profile fetch (null on any failure),
`nowPlayingId` / `referenceFeatures` feed the dynamic mode. -/
structure VibeEnv where
  audioFeatures : Option AudioFeatures
  nowPlayingId : Option String
  referenceFeatures : Option AudioFeatures
deriving Repr, DecidableEq

/-- Outcome of the `spotifyFetch` for the queue-append write. -/
inductive AppendOutcome where
  | status (code : Nat)
  | notAuthenticated
  | networkError
deriving Repr, DecidableEq

structure QueueEnv where
  vibeEnv : VibeEnv
  appendResult : AppendOutcome
deriving Repr, DecidableEq

/-- Lines 676-695: the vibe stage of POST /api/queue.  Returns the rejection
payload on a mismatch, `none` when the track is admitted.  When the
candidate's audio features cannot be fetched the track is admitted
(fail open, line 694). -/
def vibeStage (vibe : CurrentVibe) (env : VibeEnv) : Option VibeCheckResult :=
  if vibe.settings.enabled then
    match env.audioFeatures with
    | none => none
    | some af =>
        let r := checkVibeMatch vibe.settings env.nowPlayingId env.referenceFeatures af
        if r.isMatch then none else some r
  else none

/-- GET /api/vibe/check/:trackId (lines 801-846), reduced to its `matches`
field: `true` when the policy is disabled, when the candidate profile cannot
be fetched, or when `checkVibeMatch` matches. -/
def vibeCheckEndpoint (vibe : CurrentVibe) (env : VibeEnv) : Bool :=
  if vibe.settings.enabled = false then true
  else
    match env.audioFeatures with
    | none => true
    | some af => (checkVibeMatch vibe.settings env.nowPlayingId env.referenceFeatures af).isMatch

def isOkStatus (s : Nat) : Bool := 200 ≤ s ∧ s < 300

/-- JS `String.prototype.startsWith`, as a test on the character sequence. -/
def jsStartsWith (s p : String) : Bool := s.data.take p.data.length = p.data

inductive QueueOutcome where
  | invalidRequest
  | quotaExceeded (resetAt : Int)
  | vibeRejected (reason : Option String) (allReasons : List String)
  | notAuthError
  | serverError
  | noActiveDevice
  | upstreamFailed (code : Nat)
  | success (remaining : Int) (resetAt : Int)
  | successNoCommit
deriving Repr, DecidableEq

/-- POST /api/queue (lines 658-744).  The `checkRateLimit` middleware runs
before the handler body, hence before the URI shape validation.  The counter
is written back to the store only in the 204 branch (lines 701-716). -/
def postQueue (store : RateLimitStore) (vibe : CurrentVibe) (ip : String) (now : Int)
    (uri : Option String) (env : QueueEnv) : QueueOutcome × RateLimitStore :=
  match checkRateLimit store ip now with
  | .limited resetAt => (.quotaExceeded resetAt, store)
  | .allowed userLimit =>
      match uri with
      | none => (.invalidRequest, store)
      | some u =>
          if jsStartsWith u ("spotify:track:") = false then (.invalidRequest, store)
          else
            match vibeStage vibe env.vibeEnv with
            | some r => (.vibeRejected r.reason r.allReasons, store)
            | none =>
                match env.appendResult with
                | .notAuthenticated => (.notAuthError, store)
                | .networkError => (.serverError, store)
                | .status s =>
                    if s = 204 then
                      (.success ((RATE_LIMIT_MAX_REQUESTS : Int) - ((userLimit.count + 1 : Nat) : Int))
                                (userLimit.windowStart + RATE_LIMIT_WINDOW_MS),
                       setStore store ip
                         { count := userLimit.count + 1, windowStart := userLimit.windowStart })
                    else if isOkStatus s = false then
                      if s = 404 then (.noActiveDevice, store)
                      else (.upstreamFailed s, store)
                    else (.successNoCommit, store)

structure ReqEvent where
  ip : String
  now : Int
  uri : Option String
  vibe : CurrentVibe
  env : QueueEnv

/-- Sequential execution of a list of enqueue requests against the shared
rate-limit store: each request runs from its quota check to its commit
atomically, with no interleaving.  (The source separates the two by the
append `await` at line 697; the concurrent model further below captures
what interleaving there does to the counter.) -/
def runQueue : List ReqEvent → RateLimitStore → List QueueOutcome × RateLimitStore
  | [], store => ([], store)
  | r :: rs, store =>
      let step := postQueue store r.vibe r.ip r.now r.uri r.env
      let rest := runQueue rs step.2
      (step.1 :: rest.1, rest.2)

/-! ### Policy-set operation (index.js lines 763-798) -/

/-- The documented override fields of the `customSettings` request body.
An outer `none` means the key is absent from the body (so the spread keeps
the base value); `some` overrides it. -/
structure CustomSettings where
  enabled : Option Bool := none
  energy : Option (Option Range) := none
  valence : Option (Option Range) := none
  tempo : Option (Option Range) := none
  danceability : Option (Option Range) := none
deriving Repr

/-- `{...VIBE_PRESETS.custom, ...customSettings, enabled: true}` (lines
775-782): each provided key overrides the base, then the trailing
`enabled: true` wins over any `enabled` in `customSettings`. -/
def mergeCustomSettings (base : VibeSettings) (cs : CustomSettings) : VibeSettings :=
  { base with
    enabled := true,
    energy := cs.energy.getD base.energy,
    valence := cs.valence.getD base.valence,
    tempo := cs.tempo.getD base.tempo,
    danceability := cs.danceability.getD base.danceability }

inductive SetVibeResult where
  | invalidPreset
  | ok (newVibe : CurrentVibe)

/-- POST /api/vibe (lines 764-798). -/
def postVibe (preset : Option String) (customSettings : Option CustomSettings) :
    SetVibeResult :=
  match preset with
  | none => .invalidPreset
  | some p =>
      match VIBE_PRESETS p with
      | none => .invalidPreset
      | some ps =>
          if p = customId ∧ customSettings.isSome then
            .ok { preset := customId,
                  settings := mergeCustomSettings ps (customSettings.getD { }) }
          else .ok { preset := p, settings := ps }

/-! ### Credential lifecycle (index.js lines 21-26, 278-347) -/

structure HostTokens where
  accessToken : Option String
  refreshToken : Option String
  expiresAt : Option Int
deriving Repr, DecidableEq

def clearedTokens : HostTokens :=
  { accessToken := none, refreshToken := none, expiresAt := none }

/-- Behaviour of the accounts token endpoint for one refresh attempt. -/
inductive RefreshUpstream where
  | ok (accessToken : String) (refreshToken : Option String) (expiresIn : Int)
  | rejected
deriving Repr, DecidableEq

inductive FetchErr where
  | notAuthenticated
  | noRefreshToken
  | refreshFailed
deriving Repr, DecidableEq

/-- `refreshAccessToken` (lines 315-347).  Returns the thrown error if any,
the token state after the call, and the number of calls made to the token
endpoint.  On a rejected refresh the whole of `hostTokens` is cleared before
throwing (line 335). -/
def refreshAccessToken (tokens : HostTokens) (now : Int) (upstream : RefreshUpstream) :
    Option FetchErr × HostTokens × Nat :=
  match tokens.refreshToken with
  | none => (some .noRefreshToken, tokens, 0)
  | some _ =>
      match upstream with
      | .rejected => (some .refreshFailed, clearedTokens, 1)
      | .ok tok newRt expiresIn =>
          (none,
           { accessToken := some tok,
             refreshToken := match newRt with | some r => some r | none => tokens.refreshToken,
             expiresAt := some (now + expiresIn * 1000) },
           1)

/-- Line 280: `hostTokens.expiresAt && Date.now() >= hostTokens.expiresAt - 60000`.
JS truthiness: a null — or zero — `expiresAt` is falsy and short-circuits the
conjunction, so no proactive refresh is attempted in those states. -/
def needsProactiveRefresh (tokens : HostTokens) (now : Int) : Bool :=
  match tokens.expiresAt with
  | none => false
  | some e => e ≠ 0 ∧ now ≥ e - 60000

/-- Upstream responses observed by one `spotifyFetch` run. -/
structure FetchEnv where
  refreshUpstream : RefreshUpstream
  firstStatus : Nat
  retryStatus : Nat
deriving Repr, DecidableEq

structure FetchTrace where
  apiCalls : Nat
  refreshCalls : Nat
deriving Repr, DecidableEq

/-- `spotifyFetch` (lines 278-312): proactive refresh when close to expiry,
throw when not authenticated, one reactive refresh-and-retry on a 401.
Returns the result (thrown error or final HTTP status), the token state, and
a trace counting fetches to the API host (`apiCalls`) and to the token
endpoint (`refreshCalls`). -/
def spotifyFetch (tokens : HostTokens) (now : Int) (env : FetchEnv) :
    Except FetchErr Nat × HostTokens × FetchTrace :=
  let step1 : Option FetchErr × HostTokens × Nat :=
    if needsProactiveRefresh tokens now then refreshAccessToken tokens now env.refreshUpstream
    else (none, tokens, 0)
  match step1 with
  | (some e, t, rc) => (.error e, t, { apiCalls := 0, refreshCalls := rc })
  | (none, t, rc) =>
      match t.accessToken with
      | none => (.error .notAuthenticated, t, { apiCalls := 0, refreshCalls := rc })
      | some _ =>
          if env.firstStatus = 401 then
            match refreshAccessToken t now env.refreshUpstream with
            | (some e, t2, rc2) =>
                (.error e, t2, { apiCalls := 1, refreshCalls := rc + rc2 })
            | (none, t2, rc2) =>
                (.ok env.retryStatus, t2, { apiCalls := 2, refreshCalls := rc + rc2 })
          else (.ok env.firstStatus, t, { apiCalls := 1, refreshCalls := rc })

/-- `getAudioFeatures` (lines 114-126): any thrown error is caught and turned
into `null`; a non-ok status also yields `null`; otherwise the parsed body
(`payload`). -/
def getAudioFeatures (tokens : HostTokens) (now : Int) (env : FetchEnv)
    (payload : Option AudioFeatures) :
    Option AudioFeatures × HostTokens × FetchTrace :=
  match spotifyFetch tokens now env with
  | (.error _, t, tr) => (none, t, tr)
  | (.ok s, t, tr) => if isOkStatus s then (payload, t, tr) else (none, t, tr)

/-! ### OAuth handshake correlator (index.js lines 33-35, 382-414, 417-479) -/

structure OauthRecord where
  codeVerifier : String
  createdAt : Int
deriving Repr, DecidableEq

def OauthStore : Type := String → Option OauthRecord

def emptyOauthStore : OauthStore := fun _ => none

def TEN_MINUTES : Int := 10 * 60 * 1000

/-- The opportunistic sweep inside GET /api/auth/login (lines 390-396):
delete every record strictly older than ten minutes. -/
def sweepOauthStates (store : OauthStore) (now : Int) : OauthStore :=
  fun k =>
    match store k with
    | none => none
    | some r => if now - r.createdAt > TEN_MINUTES then none else some r

inductive CallbackOutcome where
  | oauthError (e : String)
  | missingCode
  | stateMismatch
  | tokenExchangeFailed
  | authenticated
deriving Repr, DecidableEq

/-- Behaviour of the token-exchange endpoint for the callback. -/
inductive ExchangeUpstream where
  | ok (accessToken : String) (refreshToken : String) (expiresIn : Int)
  | rejected
deriving Repr, DecidableEq

/-- GET /api/auth/callback (lines 417-479): the `complete(state)` operation.
The stored record is looked up by the `state` query parameter; a missing
record redirects with `state_mismatch`.  A found record is deleted before the
token exchange, so it is consumed whether the exchange succeeds or fails.
Note that `now` is used only to stamp `expiresAt` on success; the record's
`createdAt` is never compared against it. -/
def authCallback (store : OauthStore) (tokens : HostTokens) (now : Int)
    (qerror qcode qstate : Option String) (exch : ExchangeUpstream) :
    CallbackOutcome × OauthStore × HostTokens :=
  match qerror with
  | some e => (.oauthError e, store, tokens)
  | none =>
      match qcode with
      | none => (.missingCode, store, tokens)
      | some _ =>
          match qstate with
          | none => (.stateMismatch, store, tokens)
          | some st =>
              match store st with
              | none => (.stateMismatch, store, tokens)
              | some _ =>
                  let store2 : OauthStore := fun k => if k = st then none else store k
                  match exch with
                  | .rejected => (.tokenExchangeFailed, store2, tokens)
                  | .ok a r e =>
                      (.authenticated, store2,
                       { accessToken := some a, refreshToken := some r,
                         expiresAt := some (now + e * 1000) })

/-! ### Concurrent refresh interleaving (index.js lines 278-312, 315-347)

The JS runtime is a single-threaded event loop: execution of one request
runs uninterrupted between `await` points.  For a request inside
`spotifyFetch` the relevant atomic sections are:

* check: the synchronous span from the expiry test (line 280) through
  entering `refreshAccessToken` up to issuing the token-endpoint fetch
  (line 320) — it reads the shared `hostTokens`, and when the token is
  expiring it sends one upstream refresh call and then suspends at `await`;
* complete: the span after that fetch resolves (lines 339-346), writing the
  fresh tokens back into the shared `hostTokens`.

There is no promise shared between callers, so every caller that reaches
`refreshAccessToken` issues its own fetch.  The model below runs one thread
per request and a schedule choosing which thread's next atomic section
executes. -/

inductive ThreadPhase where
  | start
  | awaiting
  | done
deriving Repr, DecidableEq

structure RefreshSys where
  tokens : HostTokens
  phases : Nat → ThreadPhase
  refreshCalls : Nat

/-- One atomic section of thread `i`.  A check by a thread that observes an
expiring token enters `refreshAccessToken`; if no refresh token is stored the
function throws before any token-endpoint fetch (lines 316-318) and the
request finishes with that error, otherwise the fetch to the token endpoint
is issued (line 320) and the thread suspends awaiting it. -/
def stepThread (now : Int) (fresh : HostTokens) (s : RefreshSys) (i : Nat) : RefreshSys :=
  match s.phases i with
  | .start =>
      if needsProactiveRefresh s.tokens now then
        match s.tokens.refreshToken with
        | none =>
            { s with phases := fun j => if j = i then .done else s.phases j }
        | some _ =>
            { s with phases := fun j => if j = i then .awaiting else s.phases j,
                     refreshCalls := s.refreshCalls + 1 }
      else
        { s with phases := fun j => if j = i then .done else s.phases j }
  | .awaiting =>
      { s with tokens := fresh,
               phases := fun j => if j = i then .done else s.phases j }
  | .done => s

def runSchedule (now : Int) (fresh : HostTokens) (sched : List Nat) (s : RefreshSys) :
    RefreshSys :=
  sched.foldl (stepThread now fresh) s

/-- A credential pair whose access token expired long ago: `expiresAt` is a
truthy (non-zero) timestamp in the past. -/
def expiredTokens : HostTokens :=
  { accessToken := some ("old"), refreshToken := some ("rt"), expiresAt := some 1000 }

def freshTokens : HostTokens :=
  { accessToken := some ("new"), refreshToken := some ("rt"), expiresAt := some 7200000 }

/-- All-threads-at-the-check-point initial state: every request has entered
`spotifyFetch` but none has executed its expiry check yet. -/
def startSys (t0 : HostTokens) : RefreshSys :=
  { tokens := t0, phases := fun _ => .start, refreshCalls := 0 }

/-! ### Concurrent enqueue interleaving (index.js lines 350-375, 659-716)

The event loop runs each request's synchronous spans atomically.  For
POST /api/queue with the vibe policy disabled, the relevant atomic sections
of one request are:

* check: the synchronous span from the `checkRateLimit` middleware through
  issuing the append fetch (line 697) — it reads the stored window object
  `rateLimitStore.get(ip)`, responds 429 when `count >=
  RATE_LIMIT_MAX_REQUESTS` (line 361), and otherwise stashes a reference to
  that same object in `req.rateLimit` (line 373) and suspends at the
  `await`;
* commit: the span after a 204 response resolves (lines 701-716), executing
  `userLimit.count++` on that shared object.

`Map.get` returns a reference, so every same-IP request inside one window
aliases the one stored object; the shared mutable state is its `count`
field.  Each modelled request's append returns 204 (the success path), and
the window does not lapse during the run. -/

inductive EnqueuePhase where
  | arrived
  | reserved
  | rejected429
  | responded
deriving Repr, DecidableEq

structure EnqueueSys where
  count : Nat
  phases : Nat → EnqueuePhase

def stepEnqueue (s : EnqueueSys) (i : Nat) : EnqueueSys :=
  match s.phases i with
  | .arrived =>
      if s.count ≥ RATE_LIMIT_MAX_REQUESTS then
        { s with phases := fun j => if j = i then .rejected429 else s.phases j }
      else
        { s with phases := fun j => if j = i then .reserved else s.phases j }
  | .reserved =>
      { count := s.count + 1,
        phases := fun j => if j = i then .responded else s.phases j }
  | .rejected429 => s
  | .responded => s

def runEnqueueSchedule (sched : List Nat) (s : EnqueueSys) : EnqueueSys :=
  sched.foldl stepEnqueue s

/-- Initial state for the concurrency scenario: the stored window for the
requesting client holds count 9 and both requests have arrived. -/
def nineCommitted : EnqueueSys :=
  { count := 9, phases := fun _ => .arrived }

/-! ### Derived predicates and concrete inputs used by the verification -/

/-- The §3 invariant: every stored window's post-commit count is within the
configured limit. -/
def QuotaInv (store : RateLimitStore) : Prop :=
  ∀ ip w, store ip = some w → w.count ≤ RATE_LIMIT_MAX_REQUESTS

def isCommitSuccess : QueueOutcome → Bool
  | .success _ _ => true
  | _ => false

/-- The outcomes the spec calls rejections past the quota stage: vibe
rejection and the upstream failure kinds (including no-active-target and
auth failure). -/
def isRejectedOutcome : QueueOutcome → Bool
  | .vibeRejected _ _ => true
  | .noActiveDevice => true
  | .upstreamFailed _ => true
  | .serverError => true
  | .notAuthError => true
  | _ => false

/-- Missing or malformed candidate identifier. -/
def badUri : Option String → Bool
  | none => true
  | some u => !(jsStartsWith u ("spotify:track:"))

inductive Dimension where
  | energy
  | valence
  | tempo
  | danceability
deriving Repr, DecidableEq

/-- The fixed evaluation order stated by the spec. -/
def dimOrder : List Dimension := [.energy, .valence, .tempo, .danceability]

def dimValue (af : AudioFeatures) : Dimension → ℚ
  | .energy => af.energy
  | .valence => af.valence
  | .tempo => af.tempo
  | .danceability => af.danceability

def dimRange (th : Thresholds) : Dimension → Option Range
  | .energy => th.energy
  | .valence => th.valence
  | .tempo => th.tempo
  | .danceability => th.danceability

def dimLowMsg : Dimension → String
  | .energy => energyLowMsg
  | .valence => valenceLowMsg
  | .tempo => tempoLowMsg
  | .danceability => danceLowMsg

def dimHighMsg : Dimension → String
  | .energy => energyHighMsg
  | .valence => valenceHighMsg
  | .tempo => tempoHighMsg
  | .danceability => danceHighMsg

/-- Mismatch reasons as §4.4 of the spec words them: dimensions in the fixed
order energy, valence, tempo, danceability; a configured dimension
mismatches exactly when its value is strictly below the minimum (low
wording) or strictly above the maximum (high wording). -/
def specReasons (th : Thresholds) (af : AudioFeatures) : List String :=
  dimOrder.filterMap fun d =>
    match dimRange th d with
    | none => none
    | some r =>
        if dimValue af d < r.min then some (dimLowMsg d)
        else if dimValue af d > r.max then some (dimHighMsg d)
        else none

def inRange (r : Range) (x : ℚ) : Prop := r.min ≤ x ∧ x ≤ r.max

def resultEnabled : SetVibeResult → Bool
  | .ok v => v.settings.enabled
  | .invalidPreset => false

/-- Concrete inputs for the scenario runs. -/
def clientC : String := "203.0.113.7"

def okUri : String := "spotify:track:4uLU6hMCjMI75M1A2tKUQC"

def emptyVibeEnv : VibeEnv :=
  { audioFeatures := none, nowPlayingId := none, referenceFeatures := none }

def okEnv : QueueEnv := { vibeEnv := emptyVibeEnv, appendResult := .status 204 }

def noDeviceEnv : QueueEnv := { vibeEnv := emptyVibeEnv, appendResult := .status 404 }

def authFailEnv : QueueEnv := { vibeEnv := emptyVibeEnv, appendResult := .notAuthenticated }

def okReq (now : Int) : ReqEvent :=
  { ip := clientC, now := now, uri := some okUri, vibe := initialVibe, env := okEnv }

def scenarioTen : List ReqEvent := (List.range 10).map fun i => okReq (i : Int)

def storeAfterTen : RateLimitStore := (runQueue scenarioTen emptyRateLimitStore).2

def overQuotaStore : RateLimitStore :=
  setStore emptyRateLimitStore clientC { count := 10, windowStart := 0 }

def partyVibe : CurrentVibe := { preset := partyId, settings := partySettings }

def matchVibe : CurrentVibe := { preset := matchId, settings := matchSettings }

/-- A mellow candidate for the party scenario: energy 0.2, every other
dimension inside the party ranges. -/
def partyCandidate : AudioFeatures :=
  { energy := 0.2, valence := 0.5, tempo := 120, danceability := 0.7 }

/-- The §4.4 dynamic-threshold example reference: energy 0.9. -/
def exampleReference : AudioFeatures :=
  { energy := 0.9, valence := 0.5, tempo := 120, danceability := 0.5 }

def disabledCustom : CustomSettings := { enabled := some false }

def stateS : String := "3f2504e04f8911d39a0c0305e82c3301"

def verifierV : String := "verifier-secret"

def codeQ : String := "auth-code"

/-- A handshake record created at time 0, still present in the store. -/
def staleOauthStore : OauthStore :=
  fun k => if k = stateS then some { codeVerifier := verifierV, createdAt := 0 } else none

def ELEVEN_MINUTES : Int := 11 * 60 * 1000

/-! ## Helper lemmas -/

theorem checkRateLimit_allowed_count {store : RateLimitStore} {ip : String} {now : Int}
    {ul : QuotaWindow} (h : checkRateLimit store ip now = .allowed ul) :
    ul.count < RATE_LIMIT_MAX_REQUESTS := by
  unfold checkRateLimit at h
  split at h
  · exact absurd h (by simp)
  · next hc =>
      cases h
      omega

/-- The store after one enqueue request: either untouched, or — exactly when
the reservation was admitted and the upstream append returned 204 — updated
at the requesting client with the incremented window. -/
theorem postQueue_cases (store : RateLimitStore) (vibe : CurrentVibe) (ip : String)
    (now : Int) (uri : Option String) (env : QueueEnv) :
    (postQueue store vibe ip now uri env).2 = store ∨
    ∃ ul, checkRateLimit store ip now = .allowed ul ∧
      env.appendResult = .status 204 ∧
      postQueue store vibe ip now uri env =
        (.success ((RATE_LIMIT_MAX_REQUESTS : Int) - ((ul.count + 1 : Nat) : Int))
                  (ul.windowStart + RATE_LIMIT_WINDOW_MS),
         setStore store ip { count := ul.count + 1, windowStart := ul.windowStart }) := by
  cases hc : checkRateLimit store ip now with
  | limited resetAt => simp [postQueue, hc]
  | allowed ul =>
      cases uri with
      | none => simp [postQueue, hc]
      | some u =>
          cases hs : jsStartsWith u ("spotify:track:") with
          | false => simp [postQueue, hc, hs]
          | true =>
              cases hv : vibeStage vibe env.vibeEnv with
              | some r => simp [postQueue, hc, hs, hv]
              | none =>
                  cases ha : env.appendResult with
                  | notAuthenticated => simp [postQueue, hc, hs, hv, ha]
                  | networkError => simp [postQueue, hc, hs, hv, ha]
                  | status s =>
                      by_cases h204 : s = 204
                      · subst h204
                        refine Or.inr ⟨ul, rfl, rfl, ?_⟩
                        simp [postQueue, hc, hs, hv, ha]
                      · by_cases hok : isOkStatus s = false
                        · by_cases h404 : s = 404
                          · subst h404
                            simp [postQueue, hc, hs, hv, ha, h204, hok]
                          · simp [postQueue, hc, hs, hv, ha, h204, h404, hok]
                        · simp [postQueue, hc, hs, hv, ha, h204, hok]

theorem postQueue_preserves_inv {store : RateLimitStore} {vibe : CurrentVibe} {ip : String}
    {now : Int} {uri : Option String} {env : QueueEnv} (hinv : QuotaInv store) :
    QuotaInv (postQueue store vibe ip now uri env).2 := by
  rcases postQueue_cases store vibe ip now uri env with h | ⟨ul, hc, -, hpq⟩
  · rw [h]; exact hinv
  · rw [hpq]
    intro ip' w hw
    simp only [setStore] at hw
    by_cases hip : ip' = ip
    · rw [if_pos hip] at hw
      cases hw
      exact Nat.succ_le_of_lt (checkRateLimit_allowed_count hc)
    · rw [if_neg hip] at hw
      exact hinv ip' w hw

theorem runQueue_preserves_inv (reqs : List ReqEvent) :
    ∀ store : RateLimitStore, QuotaInv store → QuotaInv (runQueue reqs store).2 := by
  induction reqs with
  | nil => exact fun _ h => h
  | cons r rs ih => exact fun store h => ih _ (postQueue_preserves_inv h)

/-! ## Claims -/

/-- **C1** counterexample: with the stored window at count 9, two concurrent
same-IP requests that both run their quota check before either commit
(schedule: check 0, check 1, commit 0, commit 1) both pass the check and
both increment the shared window object, driving the post-commit count to
11 — strictly above the configured limit of 10 — while both requests
respond success.  The claimed invariant fails under concurrency. -/
theorem C1_concurrent_counterexample :
    (runEnqueueSchedule [0, 1, 0, 1] nineCommitted).count = 11 ∧
    (runEnqueueSchedule [0, 1, 0, 1] nineCommitted).count > RATE_LIMIT_MAX_REQUESTS ∧
    (runEnqueueSchedule [0, 1, 0, 1] nineCommitted).phases 0 = .responded ∧
    (runEnqueueSchedule [0, 1, 0, 1] nineCommitted).phases 1 = .responded := by
  decide

/-- **C1** amended: over sequentially processed enqueue requests — each
running from quota check to commit without interleaving — the post-commit
counter of any client's quota window never exceeds the limit of 10; and the
scenario holds as stated: starting from an empty store, 10 enqueues by one
client at times 0..9 all succeed leaving count 10 with windowStart 0; the
11th within the window is rejected with QuotaExceeded carrying resetAt =
windowStart + 1 hour; a call after resetAt succeeds and starts a fresh
window with count 1.  (Under concurrent interleaving of check and commit
the invariant fails: see the counterexample.) -/
theorem C1_quota_limit :
    (∀ store : RateLimitStore, QuotaInv store →
        ∀ reqs : List ReqEvent, QuotaInv (runQueue reqs store).2) ∧
    (runQueue scenarioTen emptyRateLimitStore).1.all isCommitSuccess = true ∧
    storeAfterTen clientC = some { count := 10, windowStart := 0 } ∧
    (postQueue storeAfterTen initialVibe clientC 100 (some okUri) okEnv).1 =
      .quotaExceeded (0 + RATE_LIMIT_WINDOW_MS) ∧
    (postQueue storeAfterTen initialVibe clientC (RATE_LIMIT_WINDOW_MS + 1)
        (some okUri) okEnv).1 =
      .success 9 (RATE_LIMIT_WINDOW_MS + 1 + RATE_LIMIT_WINDOW_MS) ∧
    (postQueue storeAfterTen initialVibe clientC (RATE_LIMIT_WINDOW_MS + 1)
        (some okUri) okEnv).2 clientC =
      some { count := 1, windowStart := RATE_LIMIT_WINDOW_MS + 1 } := by
  refine ⟨fun store h reqs => runQueue_preserves_inv reqs store h, ?_, ?_, ?_, ?_, ?_⟩ <;>
    decide

theorem C1_quota_limit_witness :
    QuotaWindow.count { count := 1, windowStart := 0 } ≤ RATE_LIMIT_MAX_REQUESTS :=
  C1_quota_limit.1 emptyRateLimitStore
    (fun ip w hw => by simp [emptyRateLimitStore] at hw)
    [okReq 0] clientC { count := 1, windowStart := 0 } (by decide)

/-- **C2**: a request rejected by the vibe filter or by an upstream failure
(including no-active-target) leaves the quota store unchanged, so the
remaining-quota snapshot before and after the request is identical; the
store changes only when the upstream append returned 204, in which case the
outcome is a commit success. -/
theorem C2_rejection_preserves_quota :
    ∀ (store : RateLimitStore) (vibe : CurrentVibe) (ip : String) (now : Int)
      (uri : Option String) (env : QueueEnv),
      (isRejectedOutcome (postQueue store vibe ip now uri env).1 = true →
        (postQueue store vibe ip now uri env).2 = store ∧
        rateLimitStatus (postQueue store vibe ip now uri env).2 ip now =
          rateLimitStatus store ip now) ∧
      ((postQueue store vibe ip now uri env).2 ≠ store →
        env.appendResult = .status 204 ∧
        ∃ rem rst, (postQueue store vibe ip now uri env).1 = .success rem rst) := by
  intro store vibe ip now uri env
  rcases postQueue_cases store vibe ip now uri env with h | ⟨ul, hc, h204, hpq⟩
  · exact ⟨fun _ => ⟨h, by rw [h]⟩, fun hne => absurd h hne⟩
  · constructor
    · intro hrej
      rw [hpq] at hrej
      simp [isRejectedOutcome] at hrej
    · intro _
      exact ⟨h204, _, _, by rw [hpq]⟩

theorem C2_rejection_preserves_quota_witness :
    (postQueue emptyRateLimitStore initialVibe clientC 0 (some okUri) noDeviceEnv).2 =
      emptyRateLimitStore ∧
    rateLimitStatus
        ((postQueue emptyRateLimitStore initialVibe clientC 0 (some okUri) noDeviceEnv).2)
        clientC 0 =
      rateLimitStatus emptyRateLimitStore clientC 0 :=
  (C2_rejection_preserves_quota emptyRateLimitStore initialVibe clientC 0 (some okUri)
      noDeviceEnv).1 (by decide)

/-- **C8** counterexample: an over-quota client sending a request with a
missing candidate identifier receives QuotaExceeded, not InvalidRequest —
the quota middleware runs before shape validation, so the InvalidRequest
outcome does depend on the client's quota state. -/
theorem C8_counterexample :
    (postQueue overQuotaStore initialVibe clientC 5 none okEnv).1 =
      .quotaExceeded (0 + RATE_LIMIT_WINDOW_MS) ∧
    (postQueue overQuotaStore initialVibe clientC 5 none okEnv).1 ≠
      .invalidRequest := by
  decide

/-- **C8** amended: the quota middleware runs before shape validation.  A
missing or malformed candidate identifier yields InvalidRequest (with the
store untouched) whenever the quota check admits the request; when the
client is over quota the pipeline returns QuotaExceeded regardless of the
identifier's shape. -/
theorem C8_amended_order :
    ∀ (store : RateLimitStore) (vibe : CurrentVibe) (ip : String) (now : Int)
      (uri : Option String) (env : QueueEnv),
      (badUri uri = true →
        ∀ ul, checkRateLimit store ip now = .allowed ul →
          postQueue store vibe ip now uri env = (.invalidRequest, store)) ∧
      (∀ rst, checkRateLimit store ip now = .limited rst →
        postQueue store vibe ip now uri env = (.quotaExceeded rst, store)) := by
  intro store vibe ip now uri env
  constructor
  · intro hbad ul hc
    cases uri with
    | none => simp [postQueue, hc]
    | some u =>
        simp only [badUri, Bool.not_eq_true'] at hbad
        simp [postQueue, hc, hbad]
  · intro rst hc
    simp [postQueue, hc]

theorem C8_amended_order_witness :
    postQueue emptyRateLimitStore initialVibe clientC 0 none okEnv =
      (.invalidRequest, emptyRateLimitStore) :=
  (C8_amended_order emptyRateLimitStore initialVibe clientC 0 none okEnv).1 (by decide)
    { count := 0, windowStart := 0 } (by decide)

/-- **C3**: fail-open on missing audio data while the policy is enabled.
If the candidate's profile cannot be fetched the track is admitted (both in
the enqueue pipeline and the vibe-preview endpoint); in dynamic mode, if
nothing is currently playing or the reference profile cannot be fetched,
`checkVibeMatch` always returns a match, and the track is admitted. -/
theorem C3_fail_open :
    ∀ (vibe : CurrentVibe) (env : VibeEnv),
      vibe.settings.enabled = true →
      (env.audioFeatures = none →
        vibeStage vibe env = none ∧ vibeCheckEndpoint vibe env = true) ∧
      (vibe.settings.dynamic = true →
        (env.nowPlayingId = none ∨ env.referenceFeatures = none) →
        (∀ af,
          (checkVibeMatch vibe.settings env.nowPlayingId env.referenceFeatures af).isMatch
            = true) ∧
        vibeStage vibe env = none ∧ vibeCheckEndpoint vibe env = true) := by
  intro vibe env hen
  constructor
  · intro haf
    exact ⟨by simp [vibeStage, hen, haf], by simp [vibeCheckEndpoint, hen, haf]⟩
  · intro hdyn hmiss
    have hmatch : ∀ af,
        (checkVibeMatch vibe.settings env.nowPlayingId env.referenceFeatures af).isMatch
          = true := by
      intro af
      rcases hmiss with hnp | href
      · simp [checkVibeMatch, hen, hdyn, hnp]
      · cases hnp : env.nowPlayingId with
        | none => simp [checkVibeMatch, hen, hdyn, hnp]
        | some nid => simp [checkVibeMatch, hen, hdyn, hnp, href]
    refine ⟨hmatch, ?_, ?_⟩
    · cases haf : env.audioFeatures with
      | none => simp [vibeStage, hen, haf]
      | some af => simp [vibeStage, hen, haf, hmatch af]
    · cases haf : env.audioFeatures with
      | none => simp [vibeCheckEndpoint, hen, haf]
      | some af => simp [vibeCheckEndpoint, hen, haf, hmatch af]

theorem C3_fail_open_witness :
    vibeStage matchVibe emptyVibeEnv = none ∧
    vibeCheckEndpoint matchVibe emptyVibeEnv = true :=
  (C3_fail_open matchVibe emptyVibeEnv rfl).1 rfl

/-- **C6**: in dynamic mode each per-dimension threshold is the symmetric
window `[reference - tolerance, reference + tolerance]`: for energy, valence
and danceability membership in the computed range is membership in that
window intersected with `[0,1]`; for tempo there is no upper clamp (only the
clamp at 0 below); and the example — reference energy 0.9 with the match
preset's tolerance 0.25 yields the range `[0.65, 1]`. -/
theorem C6_dynamic_thresholds :
    ∀ (ref : AudioFeatures) (tol : Tolerance) (x : ℚ),
      (∀ r, (dynamicThresholds ref tol).energy = some r →
        (inRange r x ↔
          ref.energy - tol.energy ≤ x ∧ x ≤ ref.energy + tol.energy ∧ 0 ≤ x ∧ x ≤ 1)) ∧
      (∀ r, (dynamicThresholds ref tol).valence = some r →
        (inRange r x ↔
          ref.valence - tol.valence ≤ x ∧ x ≤ ref.valence + tol.valence ∧ 0 ≤ x ∧ x ≤ 1)) ∧
      (∀ r, (dynamicThresholds ref tol).danceability = some r →
        (inRange r x ↔
          ref.danceability - tol.danceability ≤ x ∧
          x ≤ ref.danceability + tol.danceability ∧ 0 ≤ x ∧ x ≤ 1)) ∧
      (∀ r, (dynamicThresholds ref tol).tempo = some r →
        (inRange r x ↔
          ref.tempo - tol.tempo ≤ x ∧ x ≤ ref.tempo + tol.tempo ∧ 0 ≤ x)) ∧
      (dynamicThresholds exampleReference matchTolerance).energy =
        some { min := 0.65, max := 1 } := by
  intro ref tol x
  refine ⟨?_, ?_, ?_, ?_, ?_⟩
  · intro r hr
    simp only [dynamicThresholds, Option.some_inj] at hr
    subst hr
    simp only [inRange, max_le_iff, le_min_iff]
    tauto
  · intro r hr
    simp only [dynamicThresholds, Option.some_inj] at hr
    subst hr
    simp only [inRange, max_le_iff, le_min_iff]
    tauto
  · intro r hr
    simp only [dynamicThresholds, Option.some_inj] at hr
    subst hr
    simp only [inRange, max_le_iff, le_min_iff]
    tauto
  · intro r hr
    simp only [dynamicThresholds, Option.some_inj] at hr
    subst hr
    simp only [inRange, max_le_iff]
    tauto
  · simp only [dynamicThresholds, exampleReference, matchTolerance, Option.some_inj,
      Range.mk.injEq]
    norm_num

theorem C6_dynamic_thresholds_witness :
    inRange { min := max 0 (exampleReference.energy - matchTolerance.energy),
              max := min 1 (exampleReference.energy + matchTolerance.energy) } 0.7 ↔
      exampleReference.energy - matchTolerance.energy ≤ 0.7 ∧
      (0.7 : ℚ) ≤ exampleReference.energy + matchTolerance.energy ∧
      (0 : ℚ) ≤ 0.7 ∧ (0.7 : ℚ) ≤ 1 :=
  (C6_dynamic_thresholds exampleReference matchTolerance 0.7).1 _ rfl

theorem filterMap_dimOrder (f : Dimension → Option String) :
    dimOrder.filterMap f =
      (f .energy).toList ++ (f .valence).toList ++ (f .tempo).toList ++
        (f .danceability).toList := by
  cases h1 : f .energy <;> cases h2 : f .valence <;> cases h3 : f .tempo <;>
    cases h4 : f .danceability <;>
    simp [dimOrder, List.filterMap_cons, h1, h2, h3, h4]

theorem dimMismatch_eq_toList (r : Option Range) (v : ℚ) (lo hi : String) :
    dimMismatch r v lo hi =
      (match r with
        | none => (none : Option String)
        | some rg =>
            if v < rg.min then some lo
            else if v > rg.max then some hi
            else none).toList := by
  cases r with
  | none => rfl
  | some rg =>
      by_cases h1 : v < rg.min
      · simp [dimMismatch, h1]
      · by_cases h2 : v > rg.max
        · simp [dimMismatch, h1, h2]
        · simp [dimMismatch, h1, h2]

theorem collect_eq_spec (th : Thresholds) (af : AudioFeatures) :
    collectMismatches th af = specReasons th af := by
  rw [specReasons, filterMap_dimOrder]
  simp only [collectMismatches, dimMismatch_eq_toList]
  rfl

/-- **C7**: the mismatch list computed by the code equals the spec's
description — dimensions evaluated in the fixed order energy, valence,
tempo, danceability, a dimension mismatching exactly when its value is
strictly outside its range, with the specified low/high wording; the result
carries all violated reasons and the primary reason is the head of that
list; and the party scenario — candidate energy 0.2 under the party policy
yields a mismatch whose primary reason is "Energy is too mellow". -/
theorem C7_reason_order :
    (∀ th af, collectMismatches th af = specReasons th af) ∧
    (∀ th refF af,
      (finishCheck th refF af).isMatch = (collectMismatches th af).isEmpty ∧
      (finishCheck th refF af).reason = (collectMismatches th af).head? ∧
      (finishCheck th refF af).allReasons = collectMismatches th af) ∧
    ((checkVibeMatch partySettings none none partyCandidate).isMatch = false ∧
     (checkVibeMatch partySettings none none partyCandidate).reason = some energyLowMsg ∧
     (checkVibeMatch partySettings none none partyCandidate).allReasons = [energyLowMsg]) := by
  refine ⟨collect_eq_spec, ?_, ?_⟩
  · intro th refF af
    cases h : collectMismatches th af with
    | nil => simp [finishCheck, h]
    | cons r rest => simp [finishCheck, h]
  · norm_num [checkVibeMatch, partySettings, partyCandidate, staticThresholds,
      finishCheck, collectMismatches, dimMismatch]

theorem C7_reason_order_witness :
    collectMismatches (staticThresholds partySettings) partyCandidate =
      specReasons (staticThresholds partySettings) partyCandidate :=
  C7_reason_order.1 (staticThresholds partySettings) partyCandidate

/-- **C4** counterexample: a handshake record eleven minutes old that the
begin() sweep has not yet removed is still accepted by the callback — the
outcome is authenticated, not the not-found failure the claim requires for
records more than 10 minutes old. -/
theorem C4_counterexample :
    ELEVEN_MINUTES -
        (OauthRecord.createdAt { codeVerifier := verifierV, createdAt := 0 }) >
      TEN_MINUTES ∧
    (authCallback staleOauthStore clearedTokens ELEVEN_MINUTES none (some codeQ)
        (some stateS) (.ok ("acc") ("ref") 3600)).1 = .authenticated ∧
    (authCallback staleOauthStore clearedTokens ELEVEN_MINUTES none (some codeQ)
        (some stateS) (.ok ("acc") ("ref") 3600)).1 ≠ .stateMismatch := by
  decide

/-- **C4** amended: the callback fails with the not-found outcome
(state_mismatch) exactly when no record is stored under the state token —
record age is never checked inside the callback; the 10-minute expiry is
enforced only by the opportunistic sweep in begin(), which removes exactly
the records strictly older than ten minutes; the record is deleted on first
use whatever the exchange outcome, so a second callback with the same state
always fails. -/
theorem C4_amended_complete :
    ∀ (store : OauthStore) (tokens tokens2 : HostTokens) (now now2 : Int)
      (code code2 st : String) (exch exch2 : ExchangeUpstream),
      ((authCallback store tokens now none (some code) (some st) exch).1 = .stateMismatch ↔
        store st = none) ∧
      ((authCallback store tokens now none (some code) (some st) exch).2.1 st = none) ∧
      ((authCallback ((authCallback store tokens now none (some code) (some st) exch).2.1)
          tokens2 now2 none (some code2) (some st) exch2).1 = .stateMismatch) ∧
      (∀ k, sweepOauthStates store now k = none ↔
        (store k = none ∨ ∃ r, store k = some r ∧ now - r.createdAt > TEN_MINUTES)) := by
  intro store tokens tokens2 now now2 code code2 st exch exch2
  have hdel :
      (authCallback store tokens now none (some code) (some st) exch).2.1 st = none := by
    cases hst : store st with
    | none => simp [authCallback, hst]
    | some r =>
        cases exch with
        | rejected => simp [authCallback, hst]
        | ok a rt e => simp [authCallback, hst]
  refine ⟨?_, hdel, ?_, ?_⟩
  · cases hst : store st with
    | none => simp [authCallback, hst]
    | some r =>
        cases exch with
        | rejected => simp [authCallback, hst]
        | ok a rt e => simp [authCallback, hst]
  · generalize hS2 : (authCallback store tokens now none (some code) (some st) exch).2.1 = S2
        at hdel ⊢
    simp [authCallback, hdel]
  · intro k
    cases hk : store k with
    | none => simp [sweepOauthStates, hk]
    | some r =>
        by_cases hexp : now - r.createdAt > TEN_MINUTES
        · simp [sweepOauthStates, hk, hexp]
        · simp [sweepOauthStates, hk, hexp]

theorem C4_amended_complete_witness :
    (authCallback staleOauthStore clearedTokens ELEVEN_MINUTES none (some codeQ)
        (some stateS) .rejected).1 = .stateMismatch ↔
      staleOauthStore stateS = none :=
  (C4_amended_complete staleOauthStore clearedTokens clearedTokens ELEVEN_MINUTES 0
      codeQ codeQ stateS .rejected .rejected).1

/-- **C5**: a refresh rejected by the token authority clears all of the
credential state; any subsequent `spotifyFetch` on the cleared state fails
with not-authenticated, making zero calls to the API host and zero calls to
the token endpoint (so the audio-features helper yields null, and the next
enqueue attempt returns the auth error with no upstream write attempted and
the quota store untouched). -/
theorem C5_failed_refresh_clears :
    (∀ (tokens : HostTokens) (now : Int), tokens.refreshToken ≠ none →
      refreshAccessToken tokens now .rejected = (some .refreshFailed, clearedTokens, 1)) ∧
    (∀ (now : Int) (env : FetchEnv),
      spotifyFetch clearedTokens now env =
        (.error .notAuthenticated, clearedTokens, { apiCalls := 0, refreshCalls := 0 })) ∧
    (∀ (now : Int) (env : FetchEnv) (payload : Option AudioFeatures),
      getAudioFeatures clearedTokens now env payload =
        (none, clearedTokens, { apiCalls := 0, refreshCalls := 0 })) ∧
    (postQueue emptyRateLimitStore partyVibe clientC 0 (some okUri) authFailEnv =
      (.notAuthError, emptyRateLimitStore)) := by
  refine ⟨?_, ?_, ?_, ?_⟩
  · intro tokens now hrt
    cases h : tokens.refreshToken with
    | none => exact absurd h hrt
    | some rt => simp [refreshAccessToken, h]
  · intro now env
    rfl
  · intro now env payload
    rfl
  · rfl

theorem C5_failed_refresh_clears_witness :
    refreshAccessToken expiredTokens 0 .rejected = (some .refreshFailed, clearedTokens, 1) :=
  C5_failed_refresh_clears.1 expiredTokens 0 (by decide)

/-- **C9** counterexample: two concurrent requests that both observe the
expired token before either refresh completes (schedule: check 0, check 1,
complete 0, complete 1) issue two refresh calls to the upstream token
endpoint, not exactly one — there is no single-flight coalescing. -/
theorem C9_counterexample :
    (runSchedule 1000000 freshTokens [0, 1, 0, 1] (startSys expiredTokens)).refreshCalls
        = 2 ∧
    (runSchedule 1000000 freshTokens [0, 1, 0, 1] (startSys expiredTokens)).refreshCalls
        ≠ 1 := by
  decide

theorem stepThread_check {now : Int} {fresh : HostTokens} {s : RefreshSys} {i : Nat}
    (hph : s.phases i = .start) (hexp : needsProactiveRefresh s.tokens now = true)
    (hrt : s.tokens.refreshToken ≠ none) :
    stepThread now fresh s i =
      { tokens := s.tokens,
        phases := fun j => if j = i then ThreadPhase.awaiting else s.phases j,
        refreshCalls := s.refreshCalls + 1 } := by
  unfold stepThread
  rw [hph]
  cases hr : s.tokens.refreshToken with
  | none => exact absurd hr hrt
  | some rt => simp [hexp, hr]

theorem runSchedule_allchecks (now : Int) (fresh t0 : HostTokens)
    (hexp : needsProactiveRefresh t0 now = true) (hrt : t0.refreshToken ≠ none) :
    ∀ n : Nat,
      runSchedule now fresh (List.range n) (startSys t0) =
        { tokens := t0,
          phases := fun j => if j < n then ThreadPhase.awaiting else ThreadPhase.start,
          refreshCalls := n } := by
  intro n
  induction n with
  | zero => rfl
  | succ n ih =>
      unfold runSchedule
      rw [List.range_succ, List.foldl_append]
      rw [show List.foldl (stepThread now fresh) (startSys t0) (List.range n) =
            runSchedule now fresh (List.range n) (startSys t0) from rfl, ih]
      show stepThread now fresh _ n = _
      rw [stepThread_check (by simp) (by simpa using hexp) (by simpa using hrt)]
      congr 1
      funext j
      by_cases hj : j = n
      · simp [hj]
      · by_cases hlt : j < n
        · have h1 : j < n + 1 := by omega
          simp [hj, hlt, h1]
        · have h1 : ¬ j < n + 1 := by omega
          simp [hj, hlt, h1]

/-- **C9** amended: there is no single-flight refresh — every request that
observes an expiring token at its check point (a truthy `expiresAt` within
60s of expiry, per the line-280 guard) while a refresh token is stored
issues its own call to the token endpoint, so when all N such concurrent
requests perform their check before any refresh completes, N refresh calls
reach upstream instead of one. -/
theorem C9_no_single_flight :
    ∀ (n : Nat) (now : Int) (fresh t0 : HostTokens),
      needsProactiveRefresh t0 now = true →
      t0.refreshToken ≠ none →
      (runSchedule now fresh (List.range n) (startSys t0)).refreshCalls = n := by
  intro n now fresh t0 hexp hrt
  rw [runSchedule_allchecks now fresh t0 hexp hrt n]

theorem C9_no_single_flight_witness :
    (runSchedule 1000000 freshTokens (List.range 2) (startSys expiredTokens)).refreshCalls
      = 2 :=
  C9_no_single_flight 2 1000000 freshTokens expiredTokens (by decide) (by decide)

theorem presets_enabled (p : String) (ps : VibeSettings) (h : VIBE_PRESETS p = some ps) :
    ps.enabled = true ↔ p ≠ offId := by
  unfold VIBE_PRESETS at h
  split_ifs at h with h1 h2 h3 h4 h5 h6 h7
  · cases h; subst h1; decide
  · cases h; subst h2; decide
  · cases h; subst h3; decide
  · cases h; subst h4; decide
  · cases h; subst h5; decide
  · cases h; subst h6; decide
  · cases h; subst h7; decide

/-- **C10**: after every valid policy-set operation the active policy is
enabled iff the chosen preset is not the off preset; in particular, setting
preset custom with a customSettings body containing enabled: false still
forces enabled = true. -/
theorem C10_enabled_iff :
    (∀ (p : String) (cs : Option CustomSettings) (v : CurrentVibe),
      postVibe (some p) cs = .ok v → (v.settings.enabled = true ↔ v.preset ≠ offId)) ∧
    resultEnabled (postVibe (some customId) (some disabledCustom)) = true := by
  constructor
  · intro p cs v h
    cases hps : VIBE_PRESETS p with
    | none =>
        simp only [postVibe, hps] at h
        cases h
    | some ps =>
        simp only [postVibe, hps] at h
        by_cases hcond : p = customId ∧ cs.isSome = true
        · rw [if_pos hcond] at h
          cases h
          exact ⟨fun _ => (by decide : customId ≠ offId), fun _ => rfl⟩
        · rw [if_neg hcond] at h
          cases h
          exact presets_enabled p ps hps
  · rfl

theorem C10_enabled_iff_witness :
    partySettings.enabled = true ↔ partyId ≠ offId :=
  C10_enabled_iff.1 partyId none { preset := partyId, settings := partySettings } rfl

end ElectricLove
